import Mathlib

/-!
Shallow embedding of the browser-side logic of the Refex-ecommerce2
storefront (React frontend).  JS numbers are modelled as rationals (ℚ),
optional / possibly-`undefined` JSON fields as `Option`, and the DOM-free
fragments of the components (derived state, validation gates, context
operations) as pure Lean functions.  Effects (HTTP, `localStorage`,
toasts, `console.error`) are made explicit in the result types.
-/

namespace Refex

/-- JS truthy-or on an optional number: `a || b` yields the value of `a`
when it is present and nonzero (JS number truthiness; NaN does not arise
over ℚ), otherwise `b`.  Embeds the `x || y` idiom used throughout the
source for defaulting. -/
def jsOrQ (a : Option ℚ) (b : ℚ) : ℚ :=
  match a with
  | some v => if v = 0 then b else v
  | none => b

/-- Toast notifications emitted through the `sonner` library. -/
inductive Toast
  | error (msg : String)
  | success (msg : String)
  | info (msg : String)
deriving DecidableEq

/-- Outcome of an awaited HTTP request: the resolved payload, or a thrown
(rejected) error. -/
inductive Outcome (α : Type)
  | ok (data : α)
  | err
deriving DecidableEq

/-! ## Order detail page: `getStatusColor` (CartPage.js bundle, OrderDetailPage) -/

/-- Embeds `getStatusColor` from OrderDetailPage: a `switch` on the order
status string with a `default` branch. -/
def getStatusColor (status : String) : String :=
  if status = "delivered" then "text-green-600"
  else if status = "cancelled" then "text-red-600"
  else if status = "out_for_delivery" then "text-blue-600"
  else "text-amber-600"

/-! ## CartContext: cart shape, operations and `cartItemCount` -/

/-- An item of the authenticated server cart as held by CartContext. -/
structure CartItem where
  product_id : String
  quantity : ℚ
  variant : Option String
deriving DecidableEq

/-- The cart state held by CartContext (`{ items, subtotal, loyalty_points_earnable }`). -/
structure Cart where
  items : List CartItem
  subtotal : ℚ
  loyalty_points_earnable : ℚ
deriving DecidableEq

/-- The initial / reset cart value used by CartContext. -/
def emptyCart : Cart := ⟨[], 0, 0⟩

/-- Result of one CartContext operation: the cart state afterwards, the
value returned to the caller (`none` for `fetchCart`, which returns
`undefined`), the `console.error` messages and toasts emitted, and
whether the operation propagated an exception. -/
structure CartOpResult where
  cart : Cart
  returned : Option Bool
  consoleErrors : List String
  toasts : List Toast
  threw : Bool
deriving DecidableEq

/-- Embeds `fetchCart`: GET `/api/cart`; on success the response replaces
the cart; on failure the error is caught and logged, nothing else
happens. -/
def fetchCart (resp : Outcome Cart) (cart : Cart) : CartOpResult :=
  match resp with
  | .ok data => ⟨data, none, [], [], false⟩
  | .err => ⟨cart, none, ["Failed to fetch cart:"], [], false⟩

/-- Embeds `addToCart`: POST `/api/cart/add`, then re-fetch; returns
`true` on success and `false` on a caught failure. -/
def addToCart (postResp : Outcome Unit) (fetchResp : Outcome Cart) (cart : Cart) :
    CartOpResult :=
  match postResp with
  | .ok _ =>
    let f := fetchCart fetchResp cart
    { f with returned := some true }
  | .err => ⟨cart, some false, ["Failed to add to cart:"], [], false⟩

/-- Embeds `removeFromCart`: DELETE `/api/cart/item/:id`, then re-fetch. -/
def removeFromCart (delResp : Outcome Unit) (fetchResp : Outcome Cart) (cart : Cart) :
    CartOpResult :=
  match delResp with
  | .ok _ =>
    let f := fetchCart fetchResp cart
    { f with returned := some true }
  | .err => ⟨cart, some false, ["Failed to remove from cart:"], [], false⟩

/-- Embeds `updateCart`: POST `/api/cart/update` with the new item list,
then re-fetch. -/
def updateCart (postResp : Outcome Unit) (fetchResp : Outcome Cart) (cart : Cart) :
    CartOpResult :=
  match postResp with
  | .ok _ =>
    let f := fetchCart fetchResp cart
    { f with returned := some true }
  | .err => ⟨cart, some false, ["Failed to update cart:"], [], false⟩

/-- Embeds `clearCart`: DELETE `/api/cart`; on success the cart state is
reset locally (no re-fetch). -/
def clearCart (resp : Outcome Unit) (cart : Cart) : CartOpResult :=
  match resp with
  | .ok _ => ⟨emptyCart, some true, [], [], false⟩
  | .err => ⟨cart, some false, ["Failed to clear cart:"], [], false⟩

/-- Embeds the derived value
`cart.items.reduce((sum, item) => sum + item.quantity, 0)`. -/
def cartItemCount (cart : Cart) : ℚ :=
  cart.items.foldl (fun sum item => sum + item.quantity) 0

/-! ## CartPage: guest cart (localStorage-backed) derived display cart -/

/-- The product JSON embedded in a cart item.  All numeric fields are
optional: the backend may omit them, matching `item.product?.field`
accesses in the source. -/
structure Product where
  price : Option ℚ
  discount_price : Option ℚ
  loyalty_points_earn : Option ℚ
deriving DecidableEq

/-- An item of the guest cart stored under the `localCart` storage key:
`{ product_id, quantity, product }`, where the product snapshot itself can
be absent (`item.product?.…`). -/
structure LocalCartItem where
  product_id : String
  quantity : ℚ
  product : Option Product
deriving DecidableEq

/-- The effective unit price computed by CartPage:
`item.product?.discount_price || item.product?.price || 0`. -/
def guestUnitPrice (p : Option Product) : ℚ :=
  jsOrQ (p.bind Product.discount_price) (jsOrQ (p.bind Product.price) 0)

/-- The loyalty rate computed by CartPage:
`item.product?.loyalty_points_earn || 0`. -/
def guestLoyaltyRate (p : Option Product) : ℚ :=
  jsOrQ (p.bind Product.loyalty_points_earn) 0

/-- A rendered item of the guest display cart (the spread `...item`
followed by the added `item_total` field). -/
structure GuestDisplayItem where
  product_id : String
  quantity : ℚ
  product : Option Product
  item_total : ℚ
deriving DecidableEq

/-- The display cart object CartPage derives for a guest. -/
structure DisplayCart where
  items : List GuestDisplayItem
  subtotal : ℚ
  loyalty_points_earnable : ℚ
deriving DecidableEq

/-- Embeds the guest branch of `displayCart` in CartPage: items mapped
with an `item_total`, `subtotal` and `loyalty_points_earnable` computed
by `reduce(..., 0)`. -/
def displayCartGuest (localCart : List LocalCartItem) : DisplayCart :=
  { items := localCart.map (fun item =>
      { product_id := item.product_id
        quantity := item.quantity
        product := item.product
        item_total := guestUnitPrice item.product * item.quantity })
    subtotal := localCart.foldl
      (fun sum item => sum + guestUnitPrice item.product * item.quantity) 0
    loyalty_points_earnable := localCart.foldl
      (fun sum item => sum + guestLoyaltyRate item.product * item.quantity) 0 }

/-- The unit price exactly as the specification sentence reads it: the
product's `discount_price` if present, otherwise its `price`, otherwise
0 — presence alone, with no JS truthiness. -/
def claimedUnitPrice (p : Option Product) : ℚ :=
  match p.bind Product.discount_price with
  | some d => d
  | none =>
    match p.bind Product.price with
    | some pr => pr
    | none => 0

/-- The unit price as amended: `discount_price` when present and
nonzero, otherwise `price` when present, otherwise 0. -/
def amendedUnitPrice (p : Option Product) : ℚ :=
  match p.bind Product.discount_price with
  | some d =>
    if d = 0 then
      match p.bind Product.price with
      | some pr => pr
      | none => 0
    else d
  | none =>
    match p.bind Product.price with
    | some pr => pr
    | none => 0

/-- The loyalty rate as the specification sentence reads it:
`loyalty_points_earn` if present, 0 if absent. -/
def claimedLoyaltyRate (p : Option Product) : ℚ :=
  match p.bind Product.loyalty_points_earn with
  | some v => v
  | none => 0

/-! ## CartPage: guest `handleQuantityChange` -/

/-- Result of the guest branch of `handleQuantityChange`: the cart list
afterwards, whether `setLocalCart` ran, and the `localStorage.setItem`
write performed (key and stored list), if any. -/
structure GuestCartUpdate where
  localCart : List LocalCartItem
  stateUpdated : Bool
  storageWrite : Option (String × List LocalCartItem)
deriving DecidableEq

/-- Embeds the guest branch of `handleQuantityChange(productId,
newQuantity)`: an early return when `newQuantity < 1`; otherwise every
item whose `product_id` matches gets the new quantity and the updated
list is both set as state and written to the `localCart` key. -/
def handleQuantityChangeGuest (localCart : List LocalCartItem)
    (productId : String) (newQuantity : ℚ) : GuestCartUpdate :=
  if newQuantity < 1 then
    ⟨localCart, false, none⟩
  else
    let updated := localCart.map (fun item =>
      if item.product_id = productId then { item with quantity := newQuantity } else item)
    ⟨updated, true, some ("localCart", updated)⟩

/-! ## RegisterPage: `handleSubmit` validation gate -/

/-- The controlled form state of RegisterPage. -/
structure RegFormData where
  name : String
  email : String
  mobile : String
  password : String
  confirmPassword : String
deriving DecidableEq

/-- The payload posted by a register call (confirm-password excluded). -/
structure RegisterPayload where
  name : String
  email : String
  mobile : String
  password : String
deriving DecidableEq

/-- Result of the synchronous validation phase of RegisterPage's
`handleSubmit`: the register payload sent (if any), the toasts emitted
before any request, and the form state (never written by
`handleSubmit`). -/
structure RegSubmitResult where
  registerCalled : Option RegisterPayload
  toasts : List Toast
  formData : RegFormData
deriving DecidableEq

/-- Embeds `handleSubmit` of RegisterPage up to the point the register
request is issued: mismatch check first, then the minimum-length check,
each ending in an error toast and an early return. -/
def handleSubmitRegister (fd : RegFormData) : RegSubmitResult :=
  if fd.password ≠ fd.confirmPassword then
    ⟨none, [Toast.error "Passwords do not match"], fd⟩
  else if fd.password.length < 6 then
    ⟨none, [Toast.error "Password must be at least 6 characters"], fd⟩
  else
    ⟨some ⟨fd.name, fd.email, fd.mobile, fd.password⟩, [], fd⟩

/-! ## LoyaltyPage: tier table and progress bar -/

/-- The tier table of LoyaltyPage, as name and `minPoints` pairs (the
colours and benefit texts do not enter the computation). -/
def tiers : List (String × ℚ) :=
  [("Bronze", 0), ("Silver", 500), ("Gold", 1000), ("Platinum", 2000)]

/-- Embeds `tiers.findIndex(t => t.name === loyaltyData?.tier)`; JS
`findIndex` yields -1 when nothing matches (also when the tier field is
absent). -/
def currentTierIndex (tier : Option String) : Int :=
  match tiers.findIdx? (fun t => some t.1 == tier) with
  | some i => (i : Int)
  | none => -1

/-- Embeds `currentTierIndex < tiers.length - 1 ? tiers[currentTierIndex + 1] : null`. -/
def nextTier (tier : Option String) : Option (String × ℚ) :=
  let i := currentTierIndex tier
  if i < (tiers.length : Int) - 1 then tiers.get? (i + 1).toNat else none

/-- Embeds `progressToNext` of LoyaltyPage:
`Math.min(100, ((user?.loyalty_points || 0) / nextTier.minPoints) * 100)`
when a next tier exists, else 100.  Division is over ℚ; the division-
by-zero case (an unrecognised tier name making `nextTier` Bronze with
`minPoints` 0) is outside every recognised-tier state considered here. -/
def progressToNext (tier : Option String) (points : Option ℚ) : ℚ :=
  match nextTier tier with
  | some t => min 100 (jsOrQ points 0 / t.2 * 100)
  | none => 100

/-! ## CheckoutPage: `handleCheckout` validation gate -/

/-- The delivery method chosen through the checkout RadioGroup, whose
only selectable values are `airport` and `home` (the initial state is
`airport`). -/
inductive DeliveryType
  | airport
  | home
deriving DecidableEq

/-- The airport delivery form state. -/
structure AirportDetails where
  terminal : String
  gate : String
  lounge : String
deriving DecidableEq

/-- The home delivery form state. -/
structure HomeDetails where
  address : String
  city : String
  pincode : String
  contact_number : String
deriving DecidableEq

/-- The component state of CheckoutPage entering `handleCheckout`. -/
structure CheckoutState where
  deliveryType : DeliveryType
  airportDetails : AirportDetails
  homeDetails : HomeDetails
  useLoyaltyPoints : ℚ
  useWalletAmount : ℚ
  loading : Bool
deriving DecidableEq

/-- The body posted to `/api/checkout/create-payment` (the spread of the
selected details under `delivery_details`). -/
structure PaymentPayload where
  delivery_type : DeliveryType
  airport_details : Option AirportDetails
  home_details : Option HomeDetails
  use_loyalty_points : ℚ
  use_wallet_amount : ℚ
deriving DecidableEq

/-- Result of `handleCheckout` up to issuing the create-payment request:
the request body (if the validation gate passed), the toasts emitted by
the gate, and the component state afterwards. -/
structure CheckoutResult where
  paymentRequested : Option PaymentPayload
  toasts : List Toast
  state : CheckoutState
deriving DecidableEq

/-- Embeds `handleCheckout` of CheckoutPage: airport delivery requires a
truthy (non-empty) terminal, home delivery requires truthy address, city
and pincode; a failed check toasts an error and returns before any
request or state write, otherwise `setLoading(true)` runs and the
payment request is issued. -/
def handleCheckout (s : CheckoutState) : CheckoutResult :=
  if s.deliveryType = .airport ∧ s.airportDetails.terminal = "" then
    ⟨none, [Toast.error "Please select a terminal"], s⟩
  else if s.deliveryType = .home ∧
      (s.homeDetails.address = "" ∨ s.homeDetails.city = "" ∨ s.homeDetails.pincode = "") then
    ⟨none, [Toast.error "Please fill in all delivery details"], s⟩
  else
    ⟨some
      { delivery_type := s.deliveryType
        airport_details := if s.deliveryType = .airport then some s.airportDetails else none
        home_details := if s.deliveryType = .airport then none else some s.homeDetails
        use_loyalty_points := s.useLoyaltyPoints
        use_wallet_amount := s.useWalletAmount }
      , [], { s with loading := true }⟩

/-! ## Browser localStorage model and the three operator auth providers

Storage is an association list of key-value pairs; stored JSON payloads
(`JSON.stringify(userData)` and the like) are kept as opaque strings.
Every storage access of an embedded operation is also recorded in an
explicit `StorageOp` trace, so that the set of keys the frontend touches
is derivable. -/

/-- One localStorage access (only the key matters to the claims). -/
inductive StorageOp
  | get (key : String)
  | set (key : String)
  | remove (key : String)
deriving DecidableEq

/-- The key an access touches. -/
def StorageOp.key : StorageOp → String
  | .get k => k
  | .set k => k
  | .remove k => k

/-- Browser localStorage contents. -/
abbrev Storage := List (String × String)

/-- Embeds `localStorage.removeItem(k)`: every entry under the key is
dropped. -/
def removeKey : Storage → String → Storage
  | [], _ => []
  | p :: st, k => if p.1 = k then removeKey st k else p :: removeKey st k

/-- Embeds `localStorage.setItem(k, v)`: the key now maps to `v`. -/
def setKey (st : Storage) (k v : String) : Storage :=
  (k, v) :: removeKey st k

/-- Embeds `localStorage.getItem(k)` (`none` for a missing key). -/
def getKey : Storage → String → Option String
  | [], _ => none
  | p :: st, k => if p.1 = k then some p.2 else getKey st k

/-- State of `BrandAuthProvider` together with the browser environment it
mutates (storage and the axios Authorization default header). -/
structure BrandAuthState where
  user : Option String
  brand : Option String
  token : Option String
  loading : Bool
  storage : Storage
  authHeader : Option String
deriving DecidableEq

/-- Embeds `logout` of BrandAuthProvider. -/
def brandLogout (s : BrandAuthState) : BrandAuthState × List StorageOp :=
  ({ s with storage := removeKey s.storage "brand_token"
            authHeader := none
            token := none
            user := none
            brand := none },
   [.remove "brand_token"])

/-- The `/api/brand-admin/me` response body (`{ user, brand }`), payloads
opaque. -/
structure BrandProfile where
  user : String
  brand : String
deriving DecidableEq

/-- Embeds `fetchProfile` of BrandAuthProvider: on success user and brand
are set; on a caught failure `logout()` runs; `finally` clears loading. -/
def brandFetchProfile (resp : Outcome BrandProfile) (s : BrandAuthState) :
    BrandAuthState × List StorageOp :=
  match resp with
  | .ok d => ({ s with user := some d.user, brand := some d.brand, loading := false }, [])
  | .err =>
    let r := brandLogout s
    ({ r.1 with loading := false }, r.2)

/-- A successful brand login / register response. -/
structure BrandLoginResponse where
  token : String
  user : String
  brand : String
deriving DecidableEq

/-- Embeds `login` of BrandAuthProvider on a successful response. -/
def brandLogin (resp : BrandLoginResponse) (s : BrandAuthState) :
    BrandAuthState × List StorageOp :=
  ({ s with storage := setKey s.storage "brand_token" resp.token
            authHeader := some resp.token
            token := some resp.token
            user := some resp.user
            brand := some resp.brand },
   [.set "brand_token"])

/-- Embeds `register` of BrandAuthProvider on a successful response (the
same storage and state writes as `login`). -/
def brandRegister (resp : BrandLoginResponse) (s : BrandAuthState) :
    BrandAuthState × List StorageOp :=
  ({ s with storage := setKey s.storage "brand_token" resp.token
            authHeader := some resp.token
            token := some resp.token
            user := some resp.user
            brand := some resp.brand },
   [.set "brand_token"])

/-- Storage accesses of BrandAuthProvider's initial render
(`useState(localStorage.getItem('brand_token'))`). -/
def brandInitOps : List StorageOp := [.get "brand_token"]

/-- Embeds the derived `isAuthenticated: !!user` of BrandAuthProvider. -/
def brandIsAuthenticated (s : BrandAuthState) : Bool := s.user.isSome

/-- State of `LogisticsAuthProvider` (a literal sibling of the brand
provider with a `partner` field and the `logistics_token` key). -/
structure LogisticsAuthState where
  user : Option String
  partner : Option String
  token : Option String
  loading : Bool
  storage : Storage
  authHeader : Option String
deriving DecidableEq

/-- Embeds `logout` of LogisticsAuthProvider. -/
def logisticsLogout (s : LogisticsAuthState) : LogisticsAuthState × List StorageOp :=
  ({ s with storage := removeKey s.storage "logistics_token"
            authHeader := none
            token := none
            user := none
            partner := none },
   [.remove "logistics_token"])

/-- The `/api/logistics/me` response body (`{ user, partner }`). -/
structure LogisticsProfile where
  user : String
  partner : String
deriving DecidableEq

/-- Embeds `fetchProfile` of LogisticsAuthProvider. -/
def logisticsFetchProfile (resp : Outcome LogisticsProfile) (s : LogisticsAuthState) :
    LogisticsAuthState × List StorageOp :=
  match resp with
  | .ok d => ({ s with user := some d.user, partner := some d.partner, loading := false }, [])
  | .err =>
    let r := logisticsLogout s
    ({ r.1 with loading := false }, r.2)

/-- A successful logistics login / register response. -/
structure LogisticsLoginResponse where
  token : String
  user : String
  partner : String
deriving DecidableEq

/-- Embeds `login` of LogisticsAuthProvider on a successful response. -/
def logisticsLogin (resp : LogisticsLoginResponse) (s : LogisticsAuthState) :
    LogisticsAuthState × List StorageOp :=
  ({ s with storage := setKey s.storage "logistics_token" resp.token
            authHeader := some resp.token
            token := some resp.token
            user := some resp.user
            partner := some resp.partner },
   [.set "logistics_token"])

/-- Embeds `register` of LogisticsAuthProvider on a successful response. -/
def logisticsRegister (resp : LogisticsLoginResponse) (s : LogisticsAuthState) :
    LogisticsAuthState × List StorageOp :=
  ({ s with storage := setKey s.storage "logistics_token" resp.token
            authHeader := some resp.token
            token := some resp.token
            user := some resp.user
            partner := some resp.partner },
   [.set "logistics_token"])

/-- Storage accesses of LogisticsAuthProvider's initial render. -/
def logisticsInitOps : List StorageOp := [.get "logistics_token"]

/-- Embeds the derived `isAuthenticated: !!user` of LogisticsAuthProvider. -/
def logisticsIsAuthenticated (s : LogisticsAuthState) : Bool := s.user.isSome

/-- State of `AdminAuthProvider`. -/
structure AdminAuthState where
  user : Option String
  brand : Option String
  role : Option String
  token : Option String
  loading : Bool
  storage : Storage
  authHeader : Option String
deriving DecidableEq

/-- Embeds `logout` of AdminAuthProvider: all four admin storage keys are
removed. -/
def adminLogout (s : AdminAuthState) : AdminAuthState × List StorageOp :=
  ({ s with storage :=
        removeKey (removeKey (removeKey (removeKey s.storage "admin_token")
          "admin_user") "admin_role") "admin_brand"
            authHeader := none
            token := none
            user := none
            role := none
            brand := none },
   [.remove "admin_token", .remove "admin_user", .remove "admin_role", .remove "admin_brand"])

/-- A profile response for the admin provider: the user payload, plus
the brand payload on the brand-admin endpoint. -/
structure AdminProfileData where
  user : String
  brand : Option String
deriving DecidableEq

/-- Embeds `fetchProfile` of AdminAuthProvider: the stored `admin_role`
selects the endpoint (no request at all for any other stored role); a
caught failure of the issued request runs `logout()`; `finally` clears
loading. -/
def adminFetchProfile (resp : Outcome AdminProfileData) (s : AdminAuthState) :
    AdminAuthState × List StorageOp :=
  let storedRole := getKey s.storage "admin_role"
  if storedRole = some "super_admin" then
    match resp with
    | .ok d =>
      ({ s with user := some d.user, role := some "super_admin", loading := false },
       [.get "admin_role"])
    | .err =>
      let r := adminLogout s
      ({ r.1 with loading := false }, .get "admin_role" :: r.2)
  else if storedRole = some "brand_admin" then
    match resp with
    | .ok d =>
      ({ s with user := some d.user, brand := d.brand, role := some "brand_admin",
                loading := false },
       [.get "admin_role"])
    | .err =>
      let r := adminLogout s
      ({ r.1 with loading := false }, .get "admin_role" :: r.2)
  else
    ({ s with loading := false }, [.get "admin_role"])

/-- A successful unified admin login response. -/
structure AdminLoginResponse where
  token : String
  user : String
  role : String
  brand : Option String
deriving DecidableEq

/-- Embeds `login` of AdminAuthProvider on a successful response:
`admin_token`, `admin_user`, `admin_role` are always written, and
`admin_brand` only when the response carries brand data. -/
def adminLogin (resp : AdminLoginResponse) (s : AdminAuthState) :
    AdminAuthState × List StorageOp :=
  let st :=
    match resp.brand with
    | some b => setKey (setKey (setKey (setKey s.storage "admin_token" resp.token)
        "admin_user" resp.user) "admin_role" resp.role) "admin_brand" b
    | none => setKey (setKey (setKey s.storage "admin_token" resp.token)
        "admin_user" resp.user) "admin_role" resp.role
  ({ s with storage := st
            authHeader := some resp.token
            token := some resp.token
            user := some resp.user
            role := some resp.role
            brand := match resp.brand with | some b => some b | none => s.brand },
   [.set "admin_token", .set "admin_user", .set "admin_role"] ++
     (match resp.brand with | some _ => [.set "admin_brand"] | none => []))

/-- Storage accesses of AdminAuthProvider's initial render and mount
effect: the `useState` read of `admin_token`, and when a token is
present, the reads of the cached `admin_user` / `admin_role` /
`admin_brand`, falling back to `fetchProfile` (which reads `admin_role`)
when the cached user or role is missing. -/
def adminInitOps (st : Storage) : List StorageOp :=
  .get "admin_token" ::
    (match getKey st "admin_token" with
     | some _ =>
       [.get "admin_user", .get "admin_role", .get "admin_brand"] ++
         (match getKey st "admin_user", getKey st "admin_role" with
          | some _, some _ => []
          | _, _ => [.get "admin_role"])
     | none => [])

/-- Embeds the derived `isAuthenticated: !!user` of AdminAuthProvider. -/
def adminIsAuthenticated (s : AdminAuthState) : Bool := s.user.isSome

/-! ## CartPage storage accesses -/

/-- Storage accesses of CartPage's guest-load effect
(`localStorage.getItem('localCart')`). -/
def cartGuestLoadOps : List StorageOp := [.get "localCart"]

/-- Storage accesses of CartPage's merge-on-login effect: the stored
guest cart is read, and removed when non-empty. -/
def cartMergeEffectOps (stored : List LocalCartItem) : List StorageOp :=
  .get "localCart" :: (if stored.length > 0 then [.remove "localCart"] else [])

/-- Storage accesses of the guest branch of `handleQuantityChange`,
derived from its storage write. -/
def handleQuantityChangeGuestOps (localCart : List LocalCartItem)
    (productId : String) (newQuantity : ℚ) : List StorageOp :=
  match (handleQuantityChangeGuest localCart productId newQuantity).storageWrite with
  | some kv => [.set kv.1]
  | none => []

/-- Embeds the guest branch of `handleRemove`: the item is filtered out,
the updated list is set as state and written back, and a success toast
is shown. -/
def handleRemoveGuest (localCart : List LocalCartItem)
    (productId : String) (productName : String) : GuestCartUpdate × List Toast :=
  let updated := localCart.filter (fun item => item.product_id != productId)
  (⟨updated, true, some ("localCart", updated)⟩,
   [Toast.success ("Removed " ++ productName ++ " from cart")])

/-- Storage accesses of the guest branch of `handleRemove`. -/
def handleRemoveGuestOps (localCart : List LocalCartItem)
    (productId : String) (productName : String) : List StorageOp :=
  match (handleRemoveGuest localCart productId productName).1.storageWrite with
  | some kv => [.set kv.1]
  | none => []

/-- The four storage keys the specification names. -/
def specFourKeys : List String :=
  ["admin_token", "brand_token", "logistics_token", "localCart"]

/-- The storage keys actually appearing in the source under `src/`. -/
def allowedKeys : List String :=
  ["admin_token", "admin_user", "admin_role", "admin_brand",
   "brand_token", "logistics_token", "localCart"]

/-- Every access in the trace touches only keys of the allowed list. -/
def usesOnly (allowed : List String) (ops : List StorageOp) : Bool :=
  ops.all (fun o => allowed.contains o.key)

/-! ## Helper lemmas -/

theorem jsOrQ_some_zero (v : ℚ) : jsOrQ (some v) 0 = v := by
  unfold jsOrQ
  split <;> simp_all

/-- A left fold accumulating `f` over a list equals the starting value
plus the sum of the mapped list (the JS `reduce(..., 0)` pattern). -/
theorem foldl_add_eq_sum {α : Type} (f : α → ℚ) (l : List α) (a : ℚ) :
    l.foldl (fun s x => s + f x) a = a + (l.map f).sum := by
  induction l generalizing a with
  | nil => simp
  | cons x xs ih => simp [ih, add_assoc]

theorem guestUnitPrice_eq_amended (p : Option Product) :
    guestUnitPrice p = amendedUnitPrice p := by
  unfold guestUnitPrice amendedUnitPrice jsOrQ
  cases hd : p.bind Product.discount_price with
  | none => cases hp : p.bind Product.price with
    | none => rfl
    | some pr => by_cases h : pr = 0 <;> simp [h]
  | some d =>
    by_cases h : d = 0
    · simp only [h, if_true]
      cases hp : p.bind Product.price with
      | none => rfl
      | some pr => by_cases h2 : pr = 0 <;> simp [h2]
    · simp [h]

theorem guestLoyaltyRate_eq_claimed (p : Option Product) :
    guestLoyaltyRate p = claimedLoyaltyRate p := by
  unfold guestLoyaltyRate claimedLoyaltyRate jsOrQ
  cases p.bind Product.loyalty_points_earn with
  | none => rfl
  | some v => by_cases h : v = 0 <;> simp [h]

theorem getKey_removeKey (st : Storage) (k : String) :
    getKey (removeKey st k) k = none := by
  induction st with
  | nil => rfl
  | cons p st ih =>
    by_cases h : p.1 = k <;> simp [removeKey, getKey, h, ih]

theorem getKey_removeKey_of_ne (st : Storage) (k k2 : String) (h : k ≠ k2) :
    getKey (removeKey st k2) k = getKey st k := by
  induction st with
  | nil => rfl
  | cons p st ih =>
    have h3 : k2 ≠ k := fun hh => h hh.symm
    by_cases h1 : p.1 = k2
    · have h2 : p.1 ≠ k := by
        rw [h1]
        exact h3
      simp [removeKey, getKey, h1, h2, h3, ih]
    · by_cases h2 : p.1 = k <;> simp [removeKey, getKey, h1, h2, h3, h, ih]

/-! ## Claim theorems -/

/-- C7: `getStatusColor` on the order detail page is total on status
strings, returning `text-green-600` for `delivered`, `text-red-600` for
`cancelled`, `text-blue-600` for `out_for_delivery`, and
`text-amber-600` for every other string. -/
theorem getStatusColor_total :
    getStatusColor "delivered" = "text-green-600" ∧
    getStatusColor "cancelled" = "text-red-600" ∧
    getStatusColor "out_for_delivery" = "text-blue-600" ∧
    ∀ s : String, s ≠ "delivered" → s ≠ "cancelled" → s ≠ "out_for_delivery" →
      getStatusColor s = "text-amber-600" := by
  refine ⟨rfl, rfl, rfl, ?_⟩
  intro s h1 h2 h3
  simp [getStatusColor, h1, h2, h3]

/-- C8: the derived `cartItemCount` of CartContext equals the sum of the
item quantities of the cart, and is 0 on the empty cart. -/
theorem cartItemCount_eq_sum :
    (∀ c : Cart, cartItemCount c = (c.items.map CartItem.quantity).sum) ∧
    cartItemCount emptyCart = 0 := by
  constructor
  · intro c
    unfold cartItemCount
    simpa using foldl_add_eq_sum CartItem.quantity c.items 0
  · rfl

/-- C2 fails as stated: a failed request in each CartContext operation is
caught, but no toast is emitted — here each operation run against a
failing request (on the empty cart) produces an empty toast list. -/
theorem cartOps_failure_no_toast_cex :
    (fetchCart .err emptyCart).threw = false ∧
    (fetchCart .err emptyCart).toasts = [] ∧
    (addToCart .err (.ok emptyCart) emptyCart).toasts = [] ∧
    (removeFromCart .err (.ok emptyCart) emptyCart).toasts = [] ∧
    (updateCart .err (.ok emptyCart) emptyCart).toasts = [] ∧
    (clearCart .err emptyCart).toasts = [] :=
  ⟨rfl, rfl, rfl, rfl, rfl, rfl⟩

/-- C2 amended: when the underlying request fails, every CartContext
operation catches the error (nothing is thrown), logs it via
`console.error`, leaves the cart state unchanged and emits no toast; the
mutation operations return `false` and `fetchCart` returns nothing. -/
theorem cartOps_failure_caught (c : Cart) :
    fetchCart .err c = ⟨c, none, ["Failed to fetch cart:"], [], false⟩ ∧
    (∀ fr, addToCart .err fr c = ⟨c, some false, ["Failed to add to cart:"], [], false⟩) ∧
    (∀ fr, removeFromCart .err fr c =
      ⟨c, some false, ["Failed to remove from cart:"], [], false⟩) ∧
    (∀ fr, updateCart .err fr c = ⟨c, some false, ["Failed to update cart:"], [], false⟩) ∧
    clearCart .err c = ⟨c, some false, ["Failed to clear cart:"], [], false⟩ :=
  ⟨rfl, fun _ => rfl, fun _ => rfl, fun _ => rfl, rfl⟩

/-- C9: for a guest, `handleQuantityChange` with a quantity below 1
changes nothing and writes nothing; with a quantity of at least 1 it
sets the quantity of every item matching the product id, keeps every
other item and the order unchanged, and writes the updated list to the
`localCart` key. -/
theorem handleQuantityChangeGuest_spec (lc : List LocalCartItem) (pid : String) (q : ℚ) :
    (q < 1 → handleQuantityChangeGuest lc pid q = ⟨lc, false, none⟩) ∧
    (1 ≤ q →
      (handleQuantityChangeGuest lc pid q).stateUpdated = true ∧
      (handleQuantityChangeGuest lc pid q).storageWrite =
        some ("localCart", (handleQuantityChangeGuest lc pid q).localCart) ∧
      (handleQuantityChangeGuest lc pid q).localCart.length = lc.length ∧
      ∀ i (h1 : i < lc.length) (h2 : i < (handleQuantityChangeGuest lc pid q).localCart.length),
        (handleQuantityChangeGuest lc pid q).localCart[i] =
          if lc[i].product_id = pid then { lc[i] with quantity := q } else lc[i]) := by
  constructor
  · intro h
    simp [handleQuantityChangeGuest, h]
  · intro h
    have hq : ¬ q < 1 := not_lt.mpr h
    refine ⟨?_, ?_, ?_, ?_⟩
    · simp [handleQuantityChangeGuest, hq]
    · simp [handleQuantityChangeGuest, hq]
    · simp [handleQuantityChangeGuest, hq]
    · intro i h1 h2
      simp [handleQuantityChangeGuest, hq]

/-- C1 fails as stated: for a guest cart holding one item whose product
has a `discount_price` of 0 and a `price` of 10, the rendered
`item_total` is 10 (JS `||` skips the falsy 0), while the claim's
"discount_price if present" reading yields 0. -/
theorem guestCart_zero_discount_cex :
    (displayCartGuest [⟨"p1", 1, some ⟨some 10, some 0, none⟩⟩]).items.map
        GuestDisplayItem.item_total = [10] ∧
    claimedUnitPrice (some ⟨some 10, some 0, none⟩) * (1 : ℚ) = 0 ∧
    (10 : ℚ) ≠ 0 := by
  refine ⟨by norm_num [displayCartGuest, guestUnitPrice, jsOrQ],
    by norm_num [claimedUnitPrice], by norm_num⟩

/-- C1 amended: for every guest cart, each rendered item carries its
source fields and an `item_total` equal to (discount_price when present
and nonzero, otherwise price when present, otherwise 0) times the
quantity; the subtotal is the sum of those totals; and
`loyalty_points_earnable` is the sum of `loyalty_points_earn` (0 when
absent) times quantity. -/
theorem guestCart_display_amended (lc : List LocalCartItem) :
    (displayCartGuest lc).items =
      lc.map (fun i =>
        { product_id := i.product_id
          quantity := i.quantity
          product := i.product
          item_total := amendedUnitPrice i.product * i.quantity }) ∧
    (displayCartGuest lc).subtotal =
      (lc.map (fun i => amendedUnitPrice i.product * i.quantity)).sum ∧
    (displayCartGuest lc).loyalty_points_earnable =
      (lc.map (fun i => claimedLoyaltyRate i.product * i.quantity)).sum := by
  refine ⟨?_, ?_, ?_⟩
  · simp [displayCartGuest, guestUnitPrice_eq_amended]
  · have h := foldl_add_eq_sum
      (fun i : LocalCartItem => guestUnitPrice i.product * i.quantity) lc 0
    simp only [displayCartGuest]
    rw [h]
    simp [guestUnitPrice_eq_amended]
  · have h := foldl_add_eq_sum
      (fun i : LocalCartItem => guestLoyaltyRate i.product * i.quantity) lc 0
    simp only [displayCartGuest]
    rw [h]
    simp [guestLoyaltyRate_eq_claimed]

/-- C3: RegisterPage's `handleSubmit` issues the register request exactly
when the password matches the confirmation and has at least 6
characters; on a failed check it emits an error toast and issues no
request; the form state is never modified by the handler. -/
theorem registerSubmit_gate (fd : RegFormData) :
    ((handleSubmitRegister fd).registerCalled.isSome ↔
      (fd.password = fd.confirmPassword ∧ 6 ≤ fd.password.length)) ∧
    (¬(fd.password = fd.confirmPassword ∧ 6 ≤ fd.password.length) →
      (handleSubmitRegister fd).registerCalled = none ∧
      ∃ m, Toast.error m ∈ (handleSubmitRegister fd).toasts) ∧
    (handleSubmitRegister fd).formData = fd := by
  by_cases h1 : fd.password = fd.confirmPassword
  · have hne : ¬(fd.password ≠ fd.confirmPassword) := fun hn => hn h1
    by_cases h2 : fd.password.length < 6
    · have h3 : ¬ 6 ≤ fd.password.length := not_le.mpr h2
      simp only [handleSubmitRegister, if_neg hne, if_pos h2]
      refine ⟨by simp [h3], ?_, by simp⟩
      intro _
      exact ⟨by simp, ⟨"Password must be at least 6 characters", by simp⟩⟩
    · have h3 : 6 ≤ fd.password.length := not_lt.mp h2
      have h4 : 6 ≤ fd.confirmPassword.length := h1 ▸ h3
      simp only [handleSubmitRegister, if_neg hne, if_neg h2]
      refine ⟨by simp [h1, h3, h4], ?_, by simp⟩
      intro hcon
      exact absurd ⟨h1, h3⟩ hcon
  · simp only [handleSubmitRegister, if_pos h1]
    refine ⟨by simp [h1], ?_, by simp⟩
    intro _
    exact ⟨by simp, ⟨"Passwords do not match", by simp⟩⟩

/-- C5: CheckoutPage's `handleCheckout` issues the create-payment request
exactly when the selected delivery method's required fields are filled
(airport: a terminal; home: address, city and pincode); on a failed
check it emits an error toast and leaves the checkout state unchanged. -/
theorem checkout_gate (s : CheckoutState) :
    ((handleCheckout s).paymentRequested.isSome ↔
      ((s.deliveryType = .airport ∧ s.airportDetails.terminal ≠ "") ∨
       (s.deliveryType = .home ∧ s.homeDetails.address ≠ "" ∧
        s.homeDetails.city ≠ "" ∧ s.homeDetails.pincode ≠ ""))) ∧
    ((handleCheckout s).paymentRequested = none →
      (∃ m, Toast.error m ∈ (handleCheckout s).toasts) ∧
      (handleCheckout s).state = s) := by
  cases hdt : s.deliveryType
  case airport =>
    by_cases ht : s.airportDetails.terminal = ""
    · refine ⟨by simp [handleCheckout, hdt, ht], ?_⟩
      intro _
      exact ⟨⟨"Please select a terminal", by simp [handleCheckout, hdt, ht]⟩,
        by simp [handleCheckout, hdt, ht]⟩
    · refine ⟨by simp [handleCheckout, hdt, ht], ?_⟩
      intro hnone
      simp [handleCheckout, hdt, ht] at hnone
  case home =>
    by_cases ha : s.homeDetails.address = ""
    · refine ⟨by simp [handleCheckout, hdt, ha], ?_⟩
      intro _
      exact ⟨⟨"Please fill in all delivery details", by simp [handleCheckout, hdt, ha]⟩,
        by simp [handleCheckout, hdt, ha]⟩
    · by_cases hc : s.homeDetails.city = ""
      · refine ⟨by simp [handleCheckout, hdt, ha, hc], ?_⟩
        intro _
        exact ⟨⟨"Please fill in all delivery details", by simp [handleCheckout, hdt, ha, hc]⟩,
          by simp [handleCheckout, hdt, ha, hc]⟩
      · by_cases hp : s.homeDetails.pincode = ""
        · refine ⟨by simp [handleCheckout, hdt, ha, hc, hp], ?_⟩
          intro _
          exact ⟨⟨"Please fill in all delivery details",
            by simp [handleCheckout, hdt, ha, hc, hp]⟩,
            by simp [handleCheckout, hdt, ha, hc, hp]⟩
        · refine ⟨by simp [handleCheckout, hdt, ha, hc, hp], ?_⟩
          intro hnone
          simp [handleCheckout, hdt, ha, hc, hp] at hnone

/-- C6: on LoyaltyPage the progress toward the next tier is
`min(100, points / nextMin * 100)` with the next minimum 500 for Bronze,
1000 for Silver and 2000 for Gold, and is 100 for a Platinum user. -/
theorem loyaltyProgress_spec :
    (∀ p : ℚ, progressToNext (some "Bronze") (some p) = min 100 (p / 500 * 100)) ∧
    (∀ p : ℚ, progressToNext (some "Silver") (some p) = min 100 (p / 1000 * 100)) ∧
    (∀ p : ℚ, progressToNext (some "Gold") (some p) = min 100 (p / 2000 * 100)) ∧
    (∀ p : ℚ, progressToNext (some "Platinum") (some p) = 100) := by
  refine ⟨?_, ?_, ?_, ?_⟩ <;>
    intro p <;>
    simp [progressToNext, nextTier, currentTierIndex, tiers, List.findIdx?, jsOrQ_some_zero]

/-- C10: in each of the brand, logistics and admin auth providers, a
failed profile fetch performs a logout: the provider's token key is
gone from storage, the Authorization default header is deleted, user
and token are null, and `isAuthenticated` is false (for the admin
provider, whenever a stored role actually made it issue a request). -/
theorem fetchProfile_failure_logs_out :
    (∀ s : BrandAuthState,
      (brandFetchProfile .err s).1.user = none ∧
      (brandFetchProfile .err s).1.token = none ∧
      (brandFetchProfile .err s).1.authHeader = none ∧
      getKey (brandFetchProfile .err s).1.storage "brand_token" = none ∧
      brandIsAuthenticated (brandFetchProfile .err s).1 = false) ∧
    (∀ s : LogisticsAuthState,
      (logisticsFetchProfile .err s).1.user = none ∧
      (logisticsFetchProfile .err s).1.token = none ∧
      (logisticsFetchProfile .err s).1.authHeader = none ∧
      getKey (logisticsFetchProfile .err s).1.storage "logistics_token" = none ∧
      logisticsIsAuthenticated (logisticsFetchProfile .err s).1 = false) ∧
    (∀ s : AdminAuthState,
      (getKey s.storage "admin_role" = some "super_admin" ∨
       getKey s.storage "admin_role" = some "brand_admin") →
      (adminFetchProfile .err s).1.user = none ∧
      (adminFetchProfile .err s).1.token = none ∧
      (adminFetchProfile .err s).1.authHeader = none ∧
      getKey (adminFetchProfile .err s).1.storage "admin_token" = none ∧
      adminIsAuthenticated (adminFetchProfile .err s).1 = false) := by
  refine ⟨?_, ?_, ?_⟩
  · intro s
    refine ⟨rfl, rfl, rfl, ?_, rfl⟩
    simp [brandFetchProfile, brandLogout, getKey_removeKey]
  · intro s
    refine ⟨rfl, rfl, rfl, ?_, rfl⟩
    simp [logisticsFetchProfile, logisticsLogout, getKey_removeKey]
  · intro s hrole
    have hst : getKey
        (removeKey (removeKey (removeKey (removeKey s.storage "admin_token")
          "admin_user") "admin_role") "admin_brand") "admin_token" = none := by
      rw [getKey_removeKey_of_ne _ _ _ (by decide),
        getKey_removeKey_of_ne _ _ _ (by decide),
        getKey_removeKey_of_ne _ _ _ (by decide),
        getKey_removeKey]
    rcases hrole with h | h
    · have hne : getKey s.storage "admin_role" = some "super_admin" := h
      refine ⟨?_, ?_, ?_, ?_, ?_⟩ <;>
        simp [adminFetchProfile, adminLogout, adminIsAuthenticated, hne, hst]
    · have hne : ¬ getKey s.storage "admin_role" = some "super_admin" := by
        rw [h]
        decide
      refine ⟨?_, ?_, ?_, ?_, ?_⟩ <;>
        simp [adminFetchProfile, adminLogout, adminIsAuthenticated, hne, h, hst]

/-- C4 fails as stated: `logout` of AdminAuthProvider removes the
`admin_user` storage key, which is not among the four keys the
specification names. -/
theorem storageKeys_admin_user_cex :
    StorageOp.remove "admin_user" ∈
      (adminLogout ⟨none, none, none, none, true, [], none⟩).2 ∧
    specFourKeys.contains "admin_user" = false := by
  refine ⟨?_, by decide⟩
  simp [adminLogout]

/-- C4 amended: every localStorage access performed by the code under
`src/` — the admin, brand and logistics auth providers and the cart
page — touches one of exactly the seven keys `admin_token`,
`admin_user`, `admin_role`, `admin_brand`, `brand_token`,
`logistics_token`, `localCart`; each of the seven occurs. -/
theorem storageKeys_inventory :
    (∀ st : Storage, usesOnly allowedKeys (adminInitOps st) = true) ∧
    (∀ resp s, usesOnly allowedKeys (adminFetchProfile resp s).2 = true) ∧
    (∀ resp s, usesOnly allowedKeys (adminLogin resp s).2 = true) ∧
    (∀ s, usesOnly allowedKeys (adminLogout s).2 = true) ∧
    usesOnly allowedKeys brandInitOps = true ∧
    (∀ resp s, usesOnly allowedKeys (brandFetchProfile resp s).2 = true) ∧
    (∀ resp s, usesOnly allowedKeys (brandLogin resp s).2 = true) ∧
    (∀ resp s, usesOnly allowedKeys (brandRegister resp s).2 = true) ∧
    (∀ s, usesOnly allowedKeys (brandLogout s).2 = true) ∧
    usesOnly allowedKeys logisticsInitOps = true ∧
    (∀ resp s, usesOnly allowedKeys (logisticsFetchProfile resp s).2 = true) ∧
    (∀ resp s, usesOnly allowedKeys (logisticsLogin resp s).2 = true) ∧
    (∀ resp s, usesOnly allowedKeys (logisticsRegister resp s).2 = true) ∧
    (∀ s, usesOnly allowedKeys (logisticsLogout s).2 = true) ∧
    usesOnly allowedKeys cartGuestLoadOps = true ∧
    (∀ stored, usesOnly allowedKeys (cartMergeEffectOps stored) = true) ∧
    (∀ lc pid q, usesOnly allowedKeys (handleQuantityChangeGuestOps lc pid q) = true) ∧
    (∀ lc pid nm, usesOnly allowedKeys (handleRemoveGuestOps lc pid nm) = true) ∧
    (∀ s, (adminLogout s).2.map StorageOp.key =
      ["admin_token", "admin_user", "admin_role", "admin_brand"]) ∧
    brandInitOps.map StorageOp.key = ["brand_token"] ∧
    logisticsInitOps.map StorageOp.key = ["logistics_token"] ∧
    cartGuestLoadOps.map StorageOp.key = ["localCart"] := by
  refine ⟨?_, ?_, ?_, ?_, by decide, ?_, ?_, ?_, ?_, by decide, ?_, ?_, ?_, ?_,
    by decide, ?_, ?_, ?_, ?_, by decide, by decide, by decide⟩
  · intro st
    unfold adminInitOps
    cases getKey st "admin_token" with
    | none => rfl
    | some t =>
      cases getKey st "admin_user" with
      | none =>
        cases getKey st "admin_role" with
        | none => rfl
        | some r => rfl
      | some u =>
        cases getKey st "admin_role" with
        | none => rfl
        | some r => rfl
  · intro resp s
    by_cases h1 : getKey s.storage "admin_role" = some "super_admin"
    · cases resp <;> simp [adminFetchProfile, adminLogout, h1, usesOnly, allowedKeys, StorageOp.key]
    · by_cases h2 : getKey s.storage "admin_role" = some "brand_admin"
      · cases resp <;>
          simp [adminFetchProfile, adminLogout, h1, h2, usesOnly, allowedKeys, StorageOp.key]
      · cases resp <;>
          simp [adminFetchProfile, adminLogout, h1, h2, usesOnly, allowedKeys, StorageOp.key]
  · intro resp s
    unfold adminLogin
    cases hb : resp.brand <;> simp [hb, usesOnly, allowedKeys, StorageOp.key]
  · intro s
    rfl
  · intro resp s
    cases resp <;> rfl
  · intro resp s
    rfl
  · intro resp s
    rfl
  · intro s
    rfl
  · intro resp s
    cases resp <;> rfl
  · intro resp s
    rfl
  · intro resp s
    rfl
  · intro s
    rfl
  · intro stored
    unfold cartMergeEffectOps
    by_cases h : stored.length > 0 <;> simp [h, usesOnly, allowedKeys, StorageOp.key]
  · intro lc pid q
    unfold handleQuantityChangeGuestOps handleQuantityChangeGuest
    by_cases h : q < 1 <;> simp [h, usesOnly, allowedKeys, StorageOp.key]
  · intro lc pid nm
    rfl
  · intro s
    rfl

end Refex
